import Mathlib

/-!
Shallow embedding of the ATENA framework core (src/main.py, src/manager.py):
the bot lifecycle state machine, the uptime formatter, the task counter,
the HTTP control-plane handlers, the command executor and the dependency
manager.  External collaborators (the code analyzer, the doc assistant,
`json.loads`, the subprocess layer) are modelled as explicit inputs, as the
spec treats them as black boxes.  Python strings read from the log file are
modelled as lists of characters where character-level splitting matters.
-/

namespace Atena

/-- One structured operation record appended to the log sink by
`log_operation(operation, status, details)`. -/
structure OpRecord where
  operation : String
  status : String
  details : String
deriving DecidableEq, Repr

/-- Python JSON values as produced by `json.loads` (numbers collapsed to
integers; the claims never depend on float payloads). -/
inductive PyJson where
  | obj (fields : List (String × PyJson))
  | arr (items : List PyJson)
  | str (s : String)
  | num (n : Int)
  | bool (b : Bool)
  | null
deriving Repr

/-- Python exceptions that the embedded code can raise past its own frame. -/
inductive PyError where
  | collaborator (e : String)
  | keyError (k : String)
  | attributeError
deriving DecidableEq, Repr

/-- One issue reported by the out-of-scope code analyzer; only its severity
tag is consumed by `analyze_project`. -/
structure Issue where
  severity : String
deriving DecidableEq, Repr

/-- One per-file result from the analyzer collaborator (`analyze_path`). -/
structure FileResult where
  issues : List Issue
deriving DecidableEq, Repr

/-- The summary dict built by `AtenaBot.analyze_project`; the
`issues_by_severity` dict is kept as an association list so that a lookup of
an absent key is observable (Python `KeyError`). -/
structure Summary where
  files_analyzed : Nat
  total_issues : Nat
  issues_by_severity : List (String × Nat)
deriving DecidableEq, Repr

/-- State of the `AtenaBot` instance (src/main.py lines 36-42) together with
the operation-log sink it appends to.  `start_time` is a timestamp in
microseconds (Python `datetime` resolution), `none` until `start()` runs. -/
structure AtenaBot where
  running : Bool
  start_time : Option Nat
  task_count : Nat
  status : String
  log : List OpRecord
deriving DecidableEq, Repr

namespace AtenaBot

/-- `AtenaBot.__init__` (src/main.py lines 36-42). -/
def init : AtenaBot :=
  { running := false
    start_time := none
    task_count := 0
    status := "initialized"
    log := [] }

/-- `AtenaBot.start` (src/main.py lines 44-50): sets running, re-stamps
`start_time` with the current time, sets status and logs. -/
def start (b : AtenaBot) (now : Nat) : AtenaBot :=
  { b with
    running := true
    start_time := some now
    status := "running"
    log := b.log ++ [⟨"bot_start", "SUCCESS", s!"ATENA started at {now}"⟩] }

/-- `AtenaBot.stop` (src/main.py lines 52-57). -/
def stop (b : AtenaBot) : AtenaBot :=
  { b with
    running := false
    status := "stopped"
    log := b.log ++ [⟨"bot_stop", "SUCCESS", "ATENA stopped"⟩] }

/-- `AtenaBot.get_uptime` (src/main.py lines 59-66): "Not started" when
`start_time` is unset, otherwise the h/m/s breakdown of the integer
truncation of `(now - start_time).total_seconds()`.  Timestamps are in
microseconds, so the truncation is division by 10^6. -/
def get_uptime (b : AtenaBot) (now : Nat) : String :=
  match b.start_time with
  | none => "Not started"
  | some t =>
    let total := (now - t) / 1000000
    let hours := total / 3600
    let remainder := total % 3600
    let minutes := remainder / 60
    let seconds := remainder % 60
    s!"{hours}h {minutes}m {seconds}s"

/-- The status dict assembled by `get_status` (src/main.py lines 68-78). -/
structure BotStatus where
  name : String
  status : String
  uptime : String
  tasks_processed : Nat
  start_time : Option Nat
  current_time : Nat
  version : String
deriving DecidableEq, Repr

/-- `AtenaBot.get_status` (src/main.py lines 68-78): a pure read. -/
def get_status (b : AtenaBot) (now : Nat) : BotStatus :=
  { name := "ATENA"
    status := b.status
    uptime := b.get_uptime now
    tasks_processed := b.task_count
    start_time := b.start_time
    current_time := now
    version := "1.0.0" }

/-- `summary["issues_by_severity"][key] += 1` on an association list:
Python raises `KeyError` (here `none`) when the key is absent. -/
def incrKey : List (String × Nat) → String → Option (List (String × Nat))
  | [], _ => none
  | (k, v) :: rest, key =>
    if k = key then some ((k, v + 1) :: rest)
    else (incrKey rest key).map (fun r => (k, v) :: r)

/-- The severity-counting loop of `analyze_project` (src/main.py lines
94-96), folded over the flattened issue lists in source order. -/
def foldIssues (m : List (String × Nat)) : List Issue → Option (List (String × Nat))
  | [] => some m
  | i :: rest =>
    match incrKey m i.severity with
    | none => none
    | some m2 => foldIssues m2 rest

/-- `AtenaBot.analyze_project` (src/main.py lines 80-99).  The analyzer
collaborator's outcome is an explicit input: `Except.error` models
`analyze_path` raising.  The returned pair is (state after the call, normal
return or propagated exception); the task-count increment and the STARTED
record happen before the delegation, so they survive a raise. -/
def analyze_project (b : AtenaBot) (path : String)
    (collab : Except String (List FileResult)) :
    AtenaBot × Except PyError Summary :=
  let b1 := { b with
    task_count := b.task_count + 1
    log := b.log ++ [⟨"analyze_project", "STARTED", path⟩] }
  match collab with
  | .error e => (b1, .error (.collaborator e))
  | .ok results =>
    let total_issues := (results.map (fun r => r.issues.length)).sum
    match foldIssues [("HIGH", 0), ("MEDIUM", 0), ("LOW", 0)]
        (results.map (fun r => r.issues)).flatten with
    | none =>
      (b1, .error (.keyError "severity"))
    | some sevMap =>
      ({ b1 with log := b1.log ++
          [⟨"analyze_project", "COMPLETED", s!"{total_issues} issues found"⟩] },
       .ok { files_analyzed := results.length
             total_issues := total_issues
             issues_by_severity := sevMap })

/-- `AtenaBot.get_error_help` (src/main.py lines 101-104): increments the
task counter, then returns the doc-assistant collaborator's payload (or
propagates its exception). -/
def get_error_help (b : AtenaBot) (_msg : PyJson)
    (collab : Except String PyJson) :
    AtenaBot × Except PyError PyJson :=
  ({ b with task_count := b.task_count + 1 },
   match collab with
   | .error e => .error (.collaborator e)
   | .ok payload => .ok payload)

/-- One pass of the `heartbeat` polling loop body (src/main.py lines
106-110): a pure read of state (it logs at debug level to the logger, not
to the operation-log sink) followed by a sleep; the bot state is unchanged. -/
def heartbeat (b : AtenaBot) : AtenaBot := b

end AtenaBot

/-- One call in a start()/stop() call sequence, carrying the wall-clock
time at which `start` would stamp `start_time`. -/
inductive SSCall where
  | start (now : Nat)
  | stop
deriving DecidableEq, Repr

/-- Apply one start()/stop() call to the bot via the embedded methods. -/
def applySS (b : AtenaBot) : SSCall → AtenaBot
  | .start now => b.start now
  | .stop => b.stop

/-- Modelled from the spec: the status "implied by the last call in the
sequence" — running after start, stopped after stop, initialized for the
empty sequence. -/
def statusImpliedBySpec (calls : List SSCall) : String :=
  match calls.getLast? with
  | none => "initialized"
  | some (.start _) => "running"
  | some .stop => "stopped"

/-- One externally triggered operation on the bot, with each collaborator's
outcome carried as data (C2 quantifies over interleavings of these). -/
inductive Event where
  | start (now : Nat)
  | stop
  | get_status (now : Nat)
  | get_uptime (now : Nat)
  | heartbeat
  | analyze_project (path : String) (collab : Except String (List FileResult))
  | get_error_help (msg : PyJson) (collab : Except String PyJson)

/-- The state reached after one operation (outputs discarded; `get_status`
and `get_uptime` are pure reads). -/
def step (b : AtenaBot) : Event → AtenaBot
  | .start now => b.start now
  | .stop => b.stop
  | .get_status _ => b
  | .get_uptime _ => b
  | .heartbeat => b.heartbeat
  | .analyze_project path collab => (b.analyze_project path collab).1
  | .get_error_help msg collab => (b.get_error_help msg collab).1

/-- How many of the events are analyze/error-help requests. -/
def countTasks (trace : List Event) : Nat :=
  trace.countP (fun e =>
    match e with
    | .analyze_project _ _ => true
    | .get_error_help _ _ => true
    | _ => false)

/-! ### CommandExecutor and DependencyManager (src/manager.py) -/

/-- Outcome of the `subprocess.run` call inside `CommandExecutor.run`,
supplied as an input since the subprocess layer is outside this core:
normal completion with an exit code and captured streams, a
`TimeoutExpired` raise, or any other exception (stringified). -/
inductive SubprocOutcome where
  | completed (returncode : Int) (stdout : String) (stderr : String)
  | timedOut
  | otherError (msg : String)
deriving DecidableEq, Repr

/-- Modelled from the spec: whether the child process is still running
after `subprocess.run` returns or raises.  The kill-on-timeout behavior
lives in the standard subprocess library, not under src/; the spec states
"the underlying process is killed, not left orphaned". -/
def processLeftRunning : SubprocOutcome → Bool
  | .completed _ _ _ => false
  | .timedOut => false
  | .otherError _ => false

/-- `CommandExecutor.run` (src/manager.py lines 82-107): returns the
operation records it appends and the `(success, stdout, stderr)` tuple.
Every branch returns a tuple; no exception escapes. -/
def CommandExecutor.run (command : String) (outcome : SubprocOutcome) :
    List OpRecord × (Bool × String × String) :=
  let started : OpRecord := ⟨"command_execute", "STARTED", command⟩
  match outcome with
  | .completed returncode stdout stderr =>
    let success := returncode == 0
    let status := if success then "SUCCESS" else "FAILED"
    ([started, ⟨"command_execute", status, s!"Exit code: {returncode}"⟩],
     (success, stdout, stderr))
  | .timedOut =>
    ([started, ⟨"command_execute", "ERROR", s!"Command timed out: {command}"⟩],
     (false, "", "Command timed out"))
  | .otherError msg =>
    ([started, ⟨"command_execute", "ERROR", msg⟩],
     (false, "", msg))

/-- `DependencyManager.install_dependencies` (src/manager.py lines 27-53).
`requirementsExists` is the filesystem's answer to
`self.requirements_path.exists()`; `installExit` the pip subprocess's exit
code (with `check=True`, a non-zero exit raises `CalledProcessError`,
caught and turned into `false`).  Returns the result, the list of
subprocess command lines invoked, and the operation records appended. -/
def install_dependencies (requirementsPath : String) (requirementsExists : Bool)
    (upgrade : Bool) (installExit : Int) :
    Bool × List (List String) × List OpRecord :=
  if requirementsExists then
    let cmd := ["sys.executable", "-m", "pip", "install", "-r", requirementsPath]
      ++ (if upgrade then ["--upgrade"] else [])
    let started : OpRecord := ⟨"install_dependencies", "STARTED", requirementsPath⟩
    if installExit == 0 then
      (true, [cmd],
       [started, ⟨"install_dependencies", "SUCCESS",
         s!"Installed from {requirementsPath}"⟩])
    else
      (false, [cmd],
       [started, ⟨"install_dependencies", "ERROR",
         s!"CalledProcessError: exit {installExit}"⟩])
  else
    (false, [],
     [⟨"install_dependencies", "ERROR",
       s!"Requirements file not found: {requirementsPath}"⟩])

/-! ### HTTP control plane (src/main.py, HealthHandler) -/

/-- Python truthiness on JSON values: `if not error_msg` takes the 400
branch exactly when the retrieved value is falsy (`""`, `0`, `[]`, `\x7b\x7d`,
`False`, `None`). -/
def pyFalsy : PyJson → Bool
  | .obj fields => fields.isEmpty
  | .arr items => items.isEmpty
  | .str s => s.isEmpty
  | .num n => n == 0
  | .bool b => !b
  | .null => true

/-- Python `dict.get(key, default)` on a parsed JSON value: on a non-object
(`list`, `str`, ...) the attribute lookup `.get` raises `AttributeError`. -/
def pyGet (j : PyJson) (key : String) (dflt : PyJson) : Except PyError PyJson :=
  match j with
  | .obj fields =>
    match fields.lookup key with
    | some v => .ok v
    | none => .ok dflt
  | _ => .error .attributeError

/-- Render a JSON value where Python would interpolate it into a string
(only used for log details; no claim inspects the rendering). -/
def pyStr : PyJson → String
  | .str s => s
  | .num n => toString n
  | .bool true => "True"
  | .bool false => "False"
  | .null => "None"
  | .obj _ => "<dict>"
  | .arr _ => "<list>"

/-- `HealthHandler.do_POST` (src/main.py lines 163-188).  `parseResult` is
the outcome of `json.loads` on the request body (`none` models
`JSONDecodeError`; a zero-length body is parsed as the empty object, since
the handler substitutes an empty-object literal).  The collaborator
outcomes for the two action routes are explicit inputs.  Returns the bot
state after the request and either the `(status, body)` response or a
propagated exception (in which case no response is sent). -/
def do_POST (b : AtenaBot) (path : String) (parseResult : Option PyJson)
    (helpCollab : Except String PyJson)
    (analyzeCollab : Except String (List FileResult)) :
    AtenaBot × Except PyError (Nat × PyJson) :=
  match parseResult with
  | none => (b, .ok (400, .obj [("error", .str "Invalid JSON")]))
  | some data =>
    if path = "/error-help" then
      match pyGet data "error" (.str "") with
      | .error e => (b, .error e)
      | .ok errorMsg =>
        if pyFalsy errorMsg then
          (b, .ok (400, .obj [("error", .str "Missing 'error' field")]))
        else
          match b.get_error_help errorMsg helpCollab with
          | (b1, .error e) => (b1, .error e)
          | (b1, .ok payload) => (b1, .ok (200, payload))
    else if path = "/analyze" then
      match pyGet data "path" (.str ".") with
      | .error e => (b, .error e)
      | .ok pathVal =>
        match b.analyze_project (pyStr pathVal) analyzeCollab with
        | (b1, .error e) => (b1, .error e)
        | (b1, .ok summary) =>
          (b1, .ok (200, .obj
            [("files_analyzed", .num summary.files_analyzed),
             ("total_issues", .num summary.total_issues),
             ("issues_by_severity", .obj
               (summary.issues_by_severity.map (fun p => (p.1, .num p.2))))]))
    else
      (b, .ok (404, .obj [("error", .str "Not found")]))

/-! ### The /logs endpoint (src/main.py lines 152-158) -/

/-- Python `str.split(sep)` for a one-character separator, on strings
modelled as character lists: splits at every occurrence, keeping empty
pieces, and returns one empty piece on the empty string. -/
def pySplit (sep : Char) : List Char → List (List Char)
  | [] => [[]]
  | c :: rest =>
    if c = sep then [] :: pySplit sep rest
    else
      match pySplit sep rest with
      | [] => [[c]]
      | piece :: pieces => (c :: piece) :: pieces

/-- Python `xs[-50:]`: the last 50 elements (all of them when fewer). -/
def lastN (n : Nat) (xs : List (List Char)) : List (List Char) :=
  xs.drop (xs.length - n)

/-- Join records with a separator character: the shape of a log file made
of newline-delimited records. -/
def joinWith (sep : Char) : List (List Char) → List Char
  | [] => []
  | [r] => r
  | r :: rest => r ++ sep :: joinWith sep rest

/-- The `/logs` branch of `HealthHandler.do_GET` (src/main.py lines
152-158): `content` is `read_text()` of the log file when it exists.
Returns the HTTP status and the value of the `"logs"` field. -/
def do_GET_logs (content : Option (List Char)) : Nat × List (List Char) :=
  match content with
  | none => (200, [])
  | some text => (200, lastN 50 (pySplit (Char.ofNat 10) text))

/-! ### Helper lemmas -/

lemma format_ne_notStarted (n m k : Nat) : s!"{n}h {m}m {k}s" ≠ "Not started" := by
  intro heq
  have hmem : 'h' ∈ (s!"{n}h {m}m {k}s").data := by
    simp [String.data_append]
    exact Or.inr (Or.inr (Or.inl (by decide)))
  rw [heq] at hmem
  simp at hmem

lemma foldl_applySS_status (calls : List SSCall) :
    ∀ (c : SSCall) (b : AtenaBot),
      ((c :: calls).foldl applySS b).status = statusImpliedBySpec (c :: calls) := by
  induction calls with
  | nil =>
    intro c b
    cases c <;> rfl
  | cons c' rest ih =>
    intro c b
    have hfold : ((c :: c' :: rest).foldl applySS b)
        = ((c' :: rest).foldl applySS (applySS b c)) := rfl
    rw [hfold, ih]
    simp [statusImpliedBySpec, List.getLast?_cons_cons]

lemma analyze_project_fst_task_count (b : AtenaBot) (path : String)
    (collab : Except String (List FileResult)) :
    (b.analyze_project path collab).1.task_count = b.task_count + 1 := by
  cases collab with
  | error e => rfl
  | ok results =>
    simp only [AtenaBot.analyze_project]
    split <;> rfl

/-! ### Claim theorems -/

/-- C1: after any finite sequence of start()/stop() calls the status equals
the status implied by the last call ("initialized" for the empty sequence,
"running" after a final start, "stopped" after a final stop); repeated
starts/stops do not error (the transition functions are total). -/
theorem startStop_status_eq_lastCall (calls : List SSCall) :
    (calls.foldl applySS AtenaBot.init).status = statusImpliedBySpec calls := by
  cases calls with
  | nil => rfl
  | cons c rest => exact foldl_applySS_status rest c AtenaBot.init

/-- C2: over any interleaving of operations, task_count grows by exactly
the number of analyze/error-help requests in the trace (whether their
collaborator succeeds or raises); start, stop, get_status, get_uptime and
heartbeat leave it unchanged. -/
theorem task_count_counts_requests (b : AtenaBot) (trace : List Event) :
    (trace.foldl step b).task_count = b.task_count + countTasks trace := by
  induction trace generalizing b with
  | nil => simp [countTasks]
  | cons e rest ih =>
    have hfold : ((e :: rest).foldl step b) = (rest.foldl step (step b e)) := rfl
    rw [hfold, ih]
    cases e <;>
      simp [step, countTasks, List.countP_cons, AtenaBot.start, AtenaBot.stop,
        AtenaBot.heartbeat, AtenaBot.get_error_help,
        analyze_project_fst_task_count] <;>
      omega

/-- C4: a timed-out command yields exactly (false, "", "Command timed out")
— `run` returns a tuple on this branch rather than raising — and the child
process is not left running (kill-on-timeout, modelled from the spec as the
subprocess layer is outside src/). -/
theorem commandExecutor_timeout (command : String) :
    (CommandExecutor.run command .timedOut).2 = (false, "", "Command timed out")
    ∧ processLeftRunning .timedOut = false :=
  ⟨rfl, rfl⟩

/-- C5: on normal completion `run` returns success = (exit code == 0) with
stdout/stderr verbatim whatever the exit code; on any other execution
failure it returns (false, "", stringified error).  `run` is a total
function into result tuples, so no exception propagates. -/
theorem commandExecutor_completion_and_failure :
    (∀ (command : String) (rc : Int) (out err : String),
        (CommandExecutor.run command (.completed rc out err)).2 = (rc == 0, out, err))
    ∧ (∀ (command msg : String),
        (CommandExecutor.run command (.otherError msg)).2 = (false, "", msg)) :=
  ⟨fun _ _ _ _ => rfl, fun _ _ => rfl⟩

/-- C7: when the requirements manifest does not exist,
install_dependencies returns false and invokes no subprocess; when it
exists, it returns true exactly when the pip install subprocess exits
zero. -/
theorem install_dependencies_manifest :
    (∀ (p : String) (up : Bool) (rc : Int),
        (install_dependencies p false up rc).1 = false
        ∧ (install_dependencies p false up rc).2.1 = [])
    ∧ (∀ (p : String) (up : Bool) (rc : Int),
        ((install_dependencies p true up rc).1 = true ↔ rc = 0)) := by
  constructor
  · intro p up rc
    exact ⟨rfl, rfl⟩
  · intro p up rc
    by_cases h : rc = 0
    · subst h
      simp [install_dependencies]
    · simp [install_dependencies, h]

/-- C9: when the analyzer collaborator raises, analyze_project has already
incremented task_count and appended the STARTED record; the exception
propagates (no summary), no COMPLETED record is appended, and the state
change is not rolled back. -/
theorem analyze_project_raise_state (b : AtenaBot) (path : String) (e : String) :
    b.analyze_project path (.error e)
      = ({ b with
            task_count := b.task_count + 1
            log := b.log ++ [⟨"analyze_project", "STARTED", path⟩] },
         .error (.collaborator e))
    ∧ ∀ r ∈ (b.analyze_project path (.error e)).1.log.drop b.log.length,
        r.status ≠ "COMPLETED" := by
  refine ⟨rfl, ?_⟩
  intro r hr
  have hlog : (b.analyze_project path (.error e)).1.log.drop b.log.length
      = [⟨"analyze_project", "STARTED", path⟩] := by
    show (b.log ++ [(⟨"analyze_project", "STARTED", path⟩ : OpRecord)]).drop b.log.length
        = [⟨"analyze_project", "STARTED", path⟩]
    exact List.drop_left b.log _
  rw [hlog] at hr
  simp at hr
  subst hr
  simp

/-- Witness for C9: the one record appended by a failing analyze call on a
fresh bot is the STARTED record, not a COMPLETED one. -/
theorem analyze_project_raise_state_witness :
    (⟨"analyze_project", "STARTED", "."⟩ : OpRecord).status ≠ "COMPLETED" :=
  (analyze_project_raise_state AtenaBot.init "." "boom").2
    ⟨"analyze_project", "STARTED", "."⟩ (by decide)

/-- C3: get_uptime returns "Not started" exactly when start() has never
set start_time; otherwise, for any current time at or after start_time, it
returns the h/m/s formatting of the truncated second count of the elapsed
time, with minutes and seconds below 60 and no rounding. -/
theorem get_uptime_format (b : AtenaBot) (now : Nat) :
    (b.get_uptime now = "Not started" ↔ b.start_time = none)
    ∧ (∀ t, b.start_time = some t → t ≤ now →
        ∃ hh mm ss, b.get_uptime now = s!"{hh}h {mm}m {ss}s"
          ∧ mm < 60 ∧ ss < 60
          ∧ 3600 * hh + 60 * mm + ss = (now - t) / 1000000) := by
  constructor
  · cases hst : b.start_time with
    | none =>
      simp [AtenaBot.get_uptime, hst]
    | some t =>
      simp only [AtenaBot.get_uptime, hst]
      constructor
      · intro heq
        exact absurd heq (format_ne_notStarted _ _ _)
      · intro hnone
        cases hnone
  · intro t ht _hle
    refine ⟨(now - t) / 1000000 / 3600, (now - t) / 1000000 % 3600 / 60,
      (now - t) / 1000000 % 3600 % 60, ?_, ?_, ?_, ?_⟩
    · simp [AtenaBot.get_uptime, ht]
    · have h1 : (now - t) / 1000000 % 3600 < 3600 := Nat.mod_lt _ (by norm_num)
      omega
    · exact Nat.mod_lt _ (by norm_num)
    · have e1 := Nat.div_add_mod ((now - t) / 1000000) 3600
      have e2 := Nat.div_add_mod ((now - t) / 1000000 % 3600) 60
      omega

/-- Witness for C3 at a concrete bot started at time 0 and a current time
of 3723 seconds later (1h 2m 3s). -/
theorem get_uptime_format_witness :
    ∃ hh mm ss, (AtenaBot.init.start 0).get_uptime 3723000000 = s!"{hh}h {mm}m {ss}s"
      ∧ mm < 60 ∧ ss < 60
      ∧ 3600 * hh + 60 * mm + ss = (3723000000 - 0) / 1000000 :=
  (get_uptime_format (AtenaBot.init.start 0) 3723000000).2 0 rfl (by decide)

lemma pySplit_no_sep (sep : Char) : ∀ l : List Char, sep ∉ l → pySplit sep l = [l] := by
  intro l
  induction l with
  | nil => intro _; rfl
  | cons c rest ih =>
    intro h
    have hc : c ≠ sep := fun hcs => h (hcs ▸ List.mem_cons_self c rest)
    have hrest : sep ∉ rest := fun hm => h (List.mem_cons_of_mem c hm)
    simp [pySplit, hc, ih hrest]

lemma pySplit_append_sep (sep : Char) :
    ∀ (r tail : List Char), sep ∉ r →
      pySplit sep (r ++ sep :: tail) = r :: pySplit sep tail := by
  intro r
  induction r with
  | nil =>
    intro tail _
    simp [pySplit]
  | cons c r2 ih =>
    intro tail h
    have hc : c ≠ sep := fun hcs => h (hcs ▸ List.mem_cons_self c r2)
    have hr2 : sep ∉ r2 := fun hm => h (List.mem_cons_of_mem c hm)
    simp [pySplit, hc, ih tail hr2]

lemma pySplit_joinWith (sep : Char) :
    ∀ records : List (List Char), records ≠ [] →
      (∀ r ∈ records, sep ∉ r) →
      pySplit sep (joinWith sep records) = records := by
  intro records
  induction records with
  | nil => intro h _; exact absurd rfl h
  | cons r rest ih =>
    intro _ hall
    cases rest with
    | nil =>
      show pySplit sep r = [r]
      exact pySplit_no_sep sep r (hall r (List.mem_cons_self r []))
    | cons r2 rest2 =>
      have hjoin : joinWith sep (r :: r2 :: rest2)
          = r ++ sep :: joinWith sep (r2 :: rest2) := rfl
      rw [hjoin, pySplit_append_sep sep r _ (hall r (List.mem_cons_self r _)),
        ih (by simp) (fun x hx => hall x (List.mem_cons_of_mem r hx))]

/-- C8: GET /logs answers 200 with an empty list when the log file is
absent; for a log file holding 100 newline-delimited records it answers
200 with exactly the last 50 of them. -/
theorem do_GET_logs_last50 :
    (do_GET_logs none = (200, []))
    ∧ (∀ records : List (List Char),
        records.length = 100 →
        (∀ r ∈ records, Char.ofNat 10 ∉ r) →
        do_GET_logs (some (joinWith (Char.ofNat 10) records))
          = (200, records.drop 50)) := by
  refine ⟨rfl, ?_⟩
  intro records hlen hnl
  have hne : records ≠ [] := by
    intro h
    rw [h] at hlen
    simp at hlen
  simp [do_GET_logs, lastN, pySplit_joinWith (Char.ofNat 10) records hne hnl, hlen]

/-- Witness for C8 on a concrete 100-record log file. -/
theorem do_GET_logs_last50_witness :
    do_GET_logs (some (joinWith (Char.ofNat 10) (List.replicate 100 ['x'])))
      = (200, (List.replicate 100 ['x']).drop 50) :=
  do_GET_logs_last50.2 (List.replicate 100 ['x']) (by simp)
    (by
      intro r hr
      rw [List.eq_of_mem_replicate hr]
      decide)

lemma incrKey_some_of_mem :
    ∀ (m : List (String × Nat)) (key : String),
      key ∈ m.map Prod.fst →
      ∃ m2, AtenaBot.incrKey m key = some m2
        ∧ m2.map Prod.fst = m.map Prod.fst
        ∧ (m2.map Prod.snd).sum = (m.map Prod.snd).sum + 1 := by
  intro m
  induction m with
  | nil =>
    intro key h
    simp at h
  | cons p rest ih =>
    intro key h
    obtain ⟨k, v⟩ := p
    by_cases hk : k = key
    · exact ⟨(k, v + 1) :: rest, by simp [AtenaBot.incrKey, hk], by simp, by simp [Nat.add_right_comm]⟩
    · simp only [List.map_cons] at h
      rcases List.mem_cons.mp h with heq | hmem
      · exact absurd heq.symm hk
      obtain ⟨m2, hm2, hkeys, hsum⟩ := ih key hmem
      exact ⟨(k, v) :: m2, by simp [AtenaBot.incrKey, hk, hm2], by simp [hkeys],
        by simp [hsum, Nat.add_assoc]⟩

lemma incrKey_none_of_not_mem :
    ∀ (m : List (String × Nat)) (key : String),
      key ∉ m.map Prod.fst → AtenaBot.incrKey m key = none := by
  intro m
  induction m with
  | nil => intro key _; rfl
  | cons p rest ih =>
    intro key h
    obtain ⟨k, v⟩ := p
    simp only [List.map_cons] at h
    have hk : k ≠ key := fun e => h (e ▸ List.mem_cons_self k _)
    have hrest : key ∉ rest.map Prod.fst := fun hm => h (List.mem_cons_of_mem k hm)
    simp [AtenaBot.incrKey, hk, ih key hrest]

lemma foldIssues_ok :
    ∀ (issues : List Issue) (m : List (String × Nat)),
      (∀ i ∈ issues, i.severity ∈ m.map Prod.fst) →
      ∃ m2, AtenaBot.foldIssues m issues = some m2
        ∧ m2.map Prod.fst = m.map Prod.fst
        ∧ (m2.map Prod.snd).sum = (m.map Prod.snd).sum + issues.length := by
  intro issues
  induction issues with
  | nil =>
    intro m _
    exact ⟨m, rfl, rfl, by simp⟩
  | cons i rest ih =>
    intro m hall
    obtain ⟨m1, hm1, hkeys1, hsum1⟩ :=
      incrKey_some_of_mem m i.severity (hall i (List.mem_cons_self i rest))
    obtain ⟨m2, hm2, hkeys2, hsum2⟩ := ih m1 (fun j hj => by
      rw [hkeys1]
      exact hall j (List.mem_cons_of_mem i hj))
    refine ⟨m2, ?_, by rw [hkeys2, hkeys1], by rw [hsum2, hsum1]; simp; omega⟩
    simp [AtenaBot.foldIssues, hm1, hm2]

lemma foldIssues_none :
    ∀ (issues : List Issue) (m : List (String × Nat)),
      (∃ i ∈ issues, i.severity ∉ m.map Prod.fst) →
      AtenaBot.foldIssues m issues = none := by
  intro issues
  induction issues with
  | nil =>
    intro m h
    simp at h
  | cons i rest ih =>
    intro m h
    obtain ⟨j, hj, hout⟩ := h
    rcases List.mem_cons.mp hj with hji | hjrest
    · subst hji
      simp [AtenaBot.foldIssues, incrKey_none_of_not_mem m j.severity hout]
    · by_cases hin : i.severity ∈ m.map Prod.fst
      · obtain ⟨m1, hm1, hkeys1, _⟩ := incrKey_some_of_mem m i.severity hin
        have : AtenaBot.foldIssues m1 rest = none := ih m1 ⟨j, hjrest, by rw [hkeys1]; exact hout⟩
        simp [AtenaBot.foldIssues, hm1, this]
      · simp [AtenaBot.foldIssues, incrKey_none_of_not_mem m i.severity hin]

/-- C10: when every reported severity is HIGH/MEDIUM/LOW the summary
counts files and issues exactly, carries exactly those three severity
keys, and its per-severity counts sum to total_issues; an issue with any
other severity makes the fold fail with a key-lookup error instead of
returning a summary. -/
theorem analyze_project_summary_fold :
    (∀ (b : AtenaBot) (path : String) (results : List FileResult),
        (∀ i ∈ (results.map (fun r => r.issues)).flatten,
            i.severity ∈ ["HIGH", "MEDIUM", "LOW"]) →
        ∃ s, (b.analyze_project path (.ok results)).2 = .ok s
          ∧ s.files_analyzed = results.length
          ∧ s.total_issues = ((results.map (fun r => r.issues)).flatten).length
          ∧ s.issues_by_severity.map Prod.fst = ["HIGH", "MEDIUM", "LOW"]
          ∧ (s.issues_by_severity.map Prod.snd).sum = s.total_issues)
    ∧ (∀ (b : AtenaBot) (path : String) (results : List FileResult),
        (∃ i ∈ (results.map (fun r => r.issues)).flatten,
            i.severity ∉ ["HIGH", "MEDIUM", "LOW"]) →
        (b.analyze_project path (.ok results)).2 = .error (.keyError "severity")) := by
  have hlen : ∀ results : List FileResult,
      ((results.map (fun r => r.issues)).flatten).length
        = (results.map (fun r => r.issues.length)).sum := by
    intro results
    simp [List.length_flatten, Function.comp_def]
  constructor
  · intro b path results hall
    obtain ⟨m2, hfold, hkeys, hsum⟩ :=
      foldIssues_ok ((results.map (fun r => r.issues)).flatten)
        [("HIGH", 0), ("MEDIUM", 0), ("LOW", 0)] hall
    refine ⟨{ files_analyzed := results.length
              total_issues := (results.map (fun r => r.issues.length)).sum
              issues_by_severity := m2 }, ?_, rfl, (hlen results).symm, hkeys, ?_⟩
    · simp only [AtenaBot.analyze_project, hfold]
    · simp only [hsum, hlen results]
      simp
  · intro b path results hbad
    have hfold := foldIssues_none ((results.map (fun r => r.issues)).flatten)
      [("HIGH", 0), ("MEDIUM", 0), ("LOW", 0)] hbad
    simp only [AtenaBot.analyze_project, hfold]

/-- Witness for C10: a good two-file analysis and a bad severity. -/
theorem analyze_project_summary_fold_witness :
    (∃ s, (AtenaBot.init.analyze_project "."
          (.ok [⟨[⟨"HIGH"⟩, ⟨"LOW"⟩]⟩, ⟨[⟨"MEDIUM"⟩]⟩])).2 = .ok s
        ∧ s.files_analyzed
            = ([⟨[⟨"HIGH"⟩, ⟨"LOW"⟩]⟩, ⟨[⟨"MEDIUM"⟩]⟩] : List FileResult).length
        ∧ s.total_issues
            = ((([⟨[⟨"HIGH"⟩, ⟨"LOW"⟩]⟩, ⟨[⟨"MEDIUM"⟩]⟩] : List FileResult).map
                (fun r => r.issues)).flatten).length
        ∧ s.issues_by_severity.map Prod.fst = ["HIGH", "MEDIUM", "LOW"]
        ∧ (s.issues_by_severity.map Prod.snd).sum = s.total_issues)
    ∧ (AtenaBot.init.analyze_project "." (.ok [⟨[⟨"CRITICAL"⟩]⟩])).2
        = .error (.keyError "severity") :=
  ⟨analyze_project_summary_fold.1 AtenaBot.init "."
      [⟨[⟨"HIGH"⟩, ⟨"LOW"⟩]⟩, ⟨[⟨"MEDIUM"⟩]⟩] (by decide),
   analyze_project_summary_fold.2 AtenaBot.init "." [⟨[⟨"CRITICAL"⟩]⟩]
      ⟨⟨"CRITICAL"⟩, by decide, by decide⟩⟩

lemma pyGet_obj (fields : List (String × PyJson)) (key : String) (dflt : PyJson) :
    pyGet (.obj fields) key dflt = .ok ((fields.lookup key).getD dflt) := by
  simp only [pyGet]
  cases fields.lookup key <;> rfl

/-- C6 counterexample: the body `[1]` is valid JSON and lacks an 'error'
field, so the claim as stated demands a 400 response, but the handler
raises AttributeError (Python `list` has no `.get`) and sends no response
at all. -/
theorem do_POST_errorHelp_nonobject_counterexample :
    do_POST AtenaBot.init "/error-help" (some (.arr [.num 1])) (.ok .null) (.ok [])
      = (AtenaBot.init, .error .attributeError) := rfl

/-- C6 (amended): malformed JSON gives 400 "Invalid JSON" before any
route-specific validation; a JSON-object body whose 'error' entry is
absent or falsy gives 400 "Missing 'error' field"; a JSON-object body with
a truthy 'error' entry delegates to get_error_help and returns its payload
with 200; a valid non-object JSON body raises AttributeError and produces
no response. -/
theorem do_POST_errorHelp_statuses :
    (∀ (b : AtenaBot) (path : String) (hc : Except String PyJson)
        (ac : Except String (List FileResult)),
        do_POST b path none hc ac
          = (b, .ok (400, .obj [("error", .str "Invalid JSON")])))
    ∧ (∀ (b : AtenaBot) (fields : List (String × PyJson))
        (hc : Except String PyJson) (ac : Except String (List FileResult)),
        pyFalsy ((fields.lookup "error").getD (.str "")) = true →
        do_POST b "/error-help" (some (.obj fields)) hc ac
          = (b, .ok (400, .obj [("error", .str "Missing 'error' field")])))
    ∧ (∀ (b : AtenaBot) (fields : List (String × PyJson)) (payload : PyJson)
        (ac : Except String (List FileResult)),
        pyFalsy ((fields.lookup "error").getD (.str "")) = false →
        do_POST b "/error-help" (some (.obj fields)) (.ok payload) ac
          = ({ b with task_count := b.task_count + 1 }, .ok (200, payload)))
    ∧ (∀ (b : AtenaBot) (j : PyJson) (hc : Except String PyJson)
        (ac : Except String (List FileResult)),
        (∀ fields, j ≠ .obj fields) →
        do_POST b "/error-help" (some j) hc ac = (b, .error .attributeError)) := by
  refine ⟨fun _ _ _ _ => rfl, ?_, ?_, ?_⟩
  · intro b fields hc ac hfalsy
    simp [do_POST, pyGet_obj, hfalsy]
  · intro b fields payload ac htruthy
    simp [do_POST, pyGet_obj, htruthy, AtenaBot.get_error_help]
  · intro b j hc ac hnotobj
    cases j with
    | obj fields => exact absurd rfl (hnotobj fields)
    | arr items => rfl
    | str s => rfl
    | num n => rfl
    | bool v => rfl
    | null => rfl

/-- Witness for C6's amended theorem at concrete bodies: an empty object,
an object with a non-empty error string, and a non-object body. -/
theorem do_POST_errorHelp_statuses_witness :
    do_POST AtenaBot.init "/error-help" (some (.obj [])) (.ok .null) (.ok [])
      = (AtenaBot.init, .ok (400, .obj [("error", .str "Missing 'error' field")]))
    ∧ do_POST AtenaBot.init "/error-help" (some (.obj [("error", .str "boom")]))
        (.ok (.str "help")) (.ok [])
      = ({ AtenaBot.init with task_count := AtenaBot.init.task_count + 1 },
         .ok (200, .str "help"))
    ∧ do_POST AtenaBot.init "/error-help" (some (.str "x")) (.ok .null) (.ok [])
      = (AtenaBot.init, .error .attributeError) :=
  ⟨do_POST_errorHelp_statuses.2.1 AtenaBot.init [] (.ok .null) (.ok []) (by decide),
   do_POST_errorHelp_statuses.2.2.1 AtenaBot.init [("error", .str "boom")]
      (.str "help") (.ok []) (by decide),
   do_POST_errorHelp_statuses.2.2.2 AtenaBot.init (.str "x") (.ok .null) (.ok [])
      (fun _ h => nomatch h)⟩

end Atena
